import Mathlib

/-!
Verification development for the `user-express-boilerplate` authentication
core: a shallow embedding of the token issuance/rotation protocol, the
device-binding scheme, the revocation registry (token blacklist) with its
grace window, the session-integrity checker, and the per-user rotation lock,
together with theorems settling the specification's claims about them.

Conventions of the embedding:
* JavaScript `undefined`/`null` is `Option.none`; JS string truthiness
  (empty string is falsy) is the `truthy` predicate below.
* JWTs are modelled as records carrying exactly the claims the code signs
  (`userId`, expiry, optional `jwtid`, issuer) plus a `sigValid` flag that
  stands for signature integrity: `jwt.sign` always produces `sigValid = true`,
  a forged or corrupted token is any value with `sigValid = false`.
* Thrown JS exceptions are `Except JsError`; a `try/catch` that converts a
  failure into a return value is the corresponding `match` on the `Except`.
* `Date.now()` is an explicit `now : Nat` argument (epoch milliseconds);
  `crypto.randomBytes`, `uuidv4` and new Mongo ids are explicit `fresh…`
  arguments, and `crypto.createHmac('sha256', secret)` is an explicit
  function argument `hmac : String → String → String` applied to the secret
  and the hashed data, since those primitives live outside the repository.
* The two Mongo collections (`RefreshTokenModel`, `TokenBlacklistModel`) are
  lists of records; `findOne` is `List.find?`, `find` is `List.filter`,
  `insertMany` is list append, `deleteMany` is `List.filter` on the negated
  condition. Queries whose value is JS `null` match nothing, because every
  queried field is `required` in the schemas.
-/

namespace UserExpress

/-- Errors raised (as `CustomErrorHelper`) by the helpers; only the identity
of the message matters for the claims, so they are an enumeration. -/
inductive JsError where
  | tokenExpired
  | invalidToken
  | notAuthenticated
  | routeProtected
  | alreadyLoggedOut
  | userIdNotFound
  | emailRequired
  | passwordRequired
  | userNotFound
  | passwordInvalid
  | typeError
  deriving Repr, DecidableEq

/-- JS truthiness of a possibly-absent string: `undefined`, `null` and the
empty string are falsy. -/
def truthy : Option String → Bool
  | none => false
  | some s => s ≠ ""

/-- JS `a || b` on possibly-absent strings. -/
def jsOr (a b : Option String) : Option String :=
  if truthy a then a else b

/-- JS `a || b` on possibly-absent non-string values (objects are always
truthy when present). -/
def jsOrO {α : Type} (a b : Option α) : Option α :=
  if a.isSome then a else b

/-- Rendering of a possibly-absent string into a JS template literal:
`null` interpolates as the text "null". -/
def optToStr : Option String → String
  | none => "null"
  | some s => s

/-- A signed JSON web token, holding exactly what `TokenHelper.Sign` puts in:
the `userId` payload, the expiry derived from `expiresIn`, the optional
`jwtid`, and the fixed issuer. `sigValid` models signature integrity. -/
structure Jwt where
  userId : String
  expiresAt : Nat
  jwtId : Option String
  issuer : String
  sigValid : Bool
  deriving Repr, DecidableEq

/-- Decoded claim set returned by `jwt.verify`. -/
structure Claims where
  userId : String
  deriving Repr, DecidableEq

/-- The two token kinds handled by `TokenHelper.ValidateAndDecodeToken`. -/
inductive TokenType where
  | access
  | refresh
  deriving Repr, DecidableEq

/-- `ExpirationTime.ACCESS_TOKEN`: 15 minutes, in milliseconds. -/
def accessTokenLifetime : Nat := 15 * 60 * 1000

/-- `ExpirationTime.REFRESH_TOKEN`: 30 days, in milliseconds. -/
def refreshTokenLifetime : Nat := 30 * 24 * 60 * 60 * 1000

/-- The issuer claim fixed by `TokenHelper.Options`. -/
def issuerName : String := "UserBoilerplate"

/-- `TokenHelper.Sign`: signs the payload with the private key; the produced
token carries the user id, the expiry, the `jwtid` when one was given, and
the issuer, and its signature verifies (`sigValid = true`). -/
def signToken (userId : String) (now lifetime : Nat) (jwtId : Option String) : Jwt :=
  { userId := userId
    expiresAt := now + lifetime
    jwtId := jwtId
    issuer := issuerName
    sigValid := true }

/-- `TokenHelper.VerifyToken` on a present token: `jwt.verify` checks the
signature, then expiry, then the registered claims (issuer, and the `jwtid`
when the options carry one); a failure throws, mapped to `.error`. The code
wraps the expiry failure as "Token expired" and everything else as
"Invalid token". -/
def verifyToken (now : Nat) (tok : Jwt) (expectedJwtId : Option String) :
    Except JsError Claims :=
  if tok.sigValid = false then .error .invalidToken
  else if tok.expiresAt < now then .error .tokenExpired
  else if tok.issuer ≠ issuerName then .error .invalidToken
  else if expectedJwtId.isSome ∧ tok.jwtId ≠ expectedJwtId then .error .invalidToken
  else .ok { userId := tok.userId }

/-- `TokenHelper.VerifyToken` on a possibly-absent token: `jwt.verify` throws
"jwt must be provided" on `null`/`undefined` input. -/
def verifyTokenOpt (now : Nat) (tok : Option Jwt) (expectedJwtId : Option String) :
    Except JsError Claims :=
  match tok with
  | none => .error .invalidToken
  | some t => verifyToken now t expectedJwtId

/-- An active refresh-token document (`RefreshTokenModel`), with the fields
`TokenHelper.GenerateNewRefreshToken` persists. `rid` is the Mongo `_id`. -/
structure RefreshTokenRecord where
  rid : String
  userId : String
  deviceId : String
  salt : String
  token : Jwt
  ipAddress : String
  userAgent : String
  expiresAt : Nat
  deriving Repr, DecidableEq

/-- A revoked-token document (`TokenBlacklistModel`). `revokedAt` and
`graceUntil` are filled by the schema defaults (`Date.now` and
`Date.now() + 60 * 1000`) because `TokenHelper.RevokeRefreshToken` omits
both from the records it bulk-inserts. -/
structure BlacklistRecord where
  userId : String
  deviceId : String
  salt : String
  token : Jwt
  ipAddress : String
  reason : String
  expiresAt : Nat
  revokedAt : Nat
  graceUntil : Nat
  deriving Repr, DecidableEq

/-- A user document, restricted to the fields `AuthController.Login` reads:
the id, the email it is looked up by, and the stored password hash. -/
structure UserRec where
  uid : String
  email : String
  password : String
  deriving Repr, DecidableEq

/-- Request-local fields (`req.userId`, `req.jwtId`, `req.accessToken`, …)
used as an overlay over the session, plus the request metadata the
rotation stamps into new records. They reset on every new request. -/
structure ReqLocal where
  jwtId : Option String := none
  userId : Option String := none
  accessToken : Option Jwt := none
  refreshToken : Option Jwt := none
  refreshTokenId : Option String := none
  deviceId : Option String := none
  ipAddress : String := ""
  userAgent : String := ""
  deriving Repr, DecidableEq

/-- Server-side session keys (`req.session.…`) handled by the auth core. -/
structure SessionData where
  jwtId : Option String := none
  userId : Option String := none
  accessToken : Option Jwt := none
  refreshToken : Option Jwt := none
  refreshTokenId : Option String := none
  deviceId : Option String := none
  deriving Repr, DecidableEq

/-- The signed-cookie jar (`req.signedCookies.…` / the cookies the helpers
set), restricted to the five credential cookies. -/
structure SignedCookies where
  userId : Option String := none
  accessToken : Option Jwt := none
  refreshToken : Option Jwt := none
  refreshTokenId : Option String := none
  deviceId : Option String := none
  deriving Repr, DecidableEq

/-- The whole state a request computes over: the request-local overlay, the
session, the signed cookies, and the two persistent collections. -/
structure SysState where
  req : ReqLocal
  session : SessionData
  cookies : SignedCookies
  store : List RefreshTokenRecord
  blacklist : List BlacklistRecord
  deriving Repr, DecidableEq

/-- `UserHelper.GetUserId`: `req.userId || req.session.userId ||
(req.signedCookies.userId || null)`. -/
def getUserId (s : SysState) : Option String :=
  jsOr s.req.userId (jsOr s.session.userId (jsOr s.cookies.userId none))

/-- `TokenHelper.GetAccessToken`: request-local, then session, then the
signed cookie. -/
def getAccessToken (s : SysState) : Option Jwt :=
  jsOrO s.req.accessToken (jsOrO s.session.accessToken (jsOrO s.cookies.accessToken none))

/-- `TokenHelper.GetRefreshToken`: request-local, then session, then the
signed cookie. -/
def getRefreshToken (s : SysState) : Option Jwt :=
  jsOrO s.req.refreshToken (jsOrO s.session.refreshToken (jsOrO s.cookies.refreshToken none))

/-- `TokenHelper.GetRefreshTokenId`: request-local, then session, then the
signed cookie. -/
def getRefreshTokenId (s : SysState) : Option String :=
  jsOr s.req.refreshTokenId (jsOr s.session.refreshTokenId (jsOr s.cookies.refreshTokenId none))

/-- `UserHelper.GetDeviceId`: request-local, then session, then the signed
cookie. -/
def getDeviceId (s : SysState) : Option String :=
  jsOr s.req.deviceId (jsOr s.session.deviceId (jsOr s.cookies.deviceId none))

/-- Body of `TokenHelper.ValidateAndDecodeToken` before its catch-all: pick
the verifier by token type (`access` verifies against
`req.session.jwtId || null`, `refresh` against none), then return `null`
for a decoded access token whose `userId` claim is falsy. -/
def validateAndDecodeTokenBody (s : SysState) (now : Nat) (tok : Option Jwt)
    (ty : TokenType) : Except JsError (Option Claims) :=
  match (match ty with
         | .access => verifyTokenOpt now tok (jsOr s.session.jwtId none)
         | .refresh => verifyTokenOpt now tok none) with
  | .error e => .error e
  | .ok c => if ty = .access ∧ c.userId = "" then .ok none else .ok (some c)

/-- `TokenHelper.ValidateAndDecodeToken`: the body wrapped in
`try { … } catch { return null }`, so every verification failure becomes
`none` and no exception reaches the caller. -/
def validateAndDecodeToken (s : SysState) (now : Nat) (tok : Option Jwt)
    (ty : TokenType) : Option Claims :=
  match validateAndDecodeTokenBody s now tok ty with
  | .error _ => none
  | .ok v => v

/-- `UserHelper.ValidateDeviceId` (the current revision, HMAC-SHA256):
fetch the presented device id, reject when it or the record's salt is
missing/falsy, recompute `HMAC(secret, userId:salt)`, reject on byte-length
mismatch, else compare with `crypto.timingSafeEqual`. The enclosing
`try/catch` returns `false` on any internal error, so the function is total
into `Bool` and never throws. -/
def validateDeviceId (hmac : String → String → String) (secret : String)
    (s : SysState) (rec? : Option RefreshTokenRecord) : Bool :=
  match getDeviceId s, rec? with
  | some d, some rec =>
    if d = "" then false
    else if rec.salt = "" then false
    else
      let expected := hmac secret (rec.userId ++ ":" ++ rec.salt)
      if d.length ≠ expected.length then false
      else decide (d = expected)
  | _, _ => false

/-- Record selection of `TokenHelper.RevokeRefreshToken`: the first guard
`( targetDeviceId || !targetDeviceId ) && !userId` is just `!userId`; inside
it, `!targetDeviceId` picks the current device id over the target one. With
a truthy `userId` and no target it selects by user id; with both arguments
truthy neither branch fires and nothing is selected. A `null` device id
matches no document (`deviceId` is a required field). -/
def revokeMatchedRecords (s : SysState) (targetDeviceId userId : Option String) :
    List RefreshTokenRecord :=
  if truthy userId = false then
    if truthy targetDeviceId = false then
      match getDeviceId s with
      | none => []
      | some d => s.store.filter (fun r => decide (r.deviceId = d))
    else
      match targetDeviceId with
      | none => []
      | some d => s.store.filter (fun r => decide (r.deviceId = d))
  else if truthy targetDeviceId = false then
    match userId with
    | none => []
    | some u => s.store.filter (fun r => decide (r.userId = u))
  else []

/-- Conversion of an active record into the blacklist document pushed by
`TokenHelper.RevokeRefreshToken`; `revokedAt`/`graceUntil` come from the
`TokenBlacklistSchema` defaults (`Date.now`, `Date.now() + 60 * 1000`)
because the pushed object omits them. The guard on
`ValidateAndDecodeToken` in the source is applied to an un-awaited promise,
which is always truthy, so no matched record is ever skipped. -/
def toBlacklistRecord (reason : String) (now : Nat) (r : RefreshTokenRecord) :
    BlacklistRecord :=
  { userId := r.userId
    deviceId := r.deviceId
    salt := r.salt
    token := r.token
    ipAddress := r.ipAddress
    reason := reason
    expiresAt := r.expiresAt
    revokedAt := now
    graceUntil := now + 60 * 1000 }

/-- State after the first persistent step of `TokenHelper.RevokeRefreshToken`:
`TokenBlacklistModel.insertMany( blacklistRecords )` has completed but
`RefreshTokenModel.deleteMany` has not run yet. This state is observable by
other requests, because both steps are separate awaited store operations. -/
def revokeInsertPhase (s : SysState) (reason : String) (now : Nat)
    (targetDeviceId userId : Option String) : SysState :=
  { s with blacklist :=
      s.blacklist ++ (revokeMatchedRecords s targetDeviceId userId).map (toBlacklistRecord reason now) }

/-- Result object of `TokenHelper.RevokeRefreshToken`. -/
structure RevokeResult where
  success : Bool
  revokedTokens : Nat
  revokedTokenIds : List String
  deriving Repr, DecidableEq

/-- `TokenHelper.RevokeRefreshToken`, both steps: the insert phase followed
by `RefreshTokenModel.deleteMany({ _id: { $in: tokenIdsToDelete } })`. -/
def revokeRefreshToken (s : SysState) (reason : String) (now : Nat)
    (targetDeviceId userId : Option String) : RevokeResult × SysState :=
  let matched := revokeMatchedRecords s targetDeviceId userId
  let ids := matched.map (fun r => r.rid)
  let s1 := revokeInsertPhase s reason now targetDeviceId userId
  let s2 := { s1 with store := s1.store.filter (fun r => !(decide (r.rid ∈ ids))) }
  ({ success := true, revokedTokens := ids.length, revokedTokenIds := ids }, s2)

/-- `TokenHelper.GetRefreshTokenRecord`: throws "not authenticated" when both
the user id and the refresh-token id are falsy; finds the active record by
exact match on `_id`, `userId`, `deviceId` and `token` (a `null` value in
the query matches nothing, since all four are required fields); then, if
the presented token is in the blacklist, accepts it only while
`now ≤ graceUntil` (the schema makes `graceUntil` always present). The
current `RefreshTokenSchema` has no `revoked` field, so the subsequent
`refreshTokenRecord.revoked` test in the source is always falsy and is
omitted here. -/
def getRefreshTokenRecord (s : SysState) (now : Nat) :
    Except JsError (Option RefreshTokenRecord) :=
  let userId := getUserId s
  let refreshToken := getRefreshToken s
  let refreshTokenId := getRefreshTokenId s
  if truthy userId = false ∧ truthy refreshTokenId = false then .error .notAuthenticated
  else
    match s.store.find? (fun r =>
        decide (refreshTokenId = some r.rid ∧ userId = some r.userId ∧
                getDeviceId s = some r.deviceId ∧ refreshToken = some r.token)) with
    | none => .ok none
    | some rec =>
      match s.blacklist.find? (fun b => decide (refreshToken = some b.token)) with
      | some bl => if now ≤ bl.graceUntil then .ok (some rec) else .ok none
      | none => .ok (some rec)

/-- `SessionHelper.ClearAllSessions`: deletes `jwtId`, `userId`,
`accessToken`, `refreshToken`, `refreshTokenId` and `deviceId` from the
session. -/
def clearAllSessions (_sess : SessionData) : SessionData := {}

/-- `CookieHelper.ClearAllCookies`: clears the `userId`, `accessToken`,
`refreshToken`, `refreshTokenId` and `deviceId` cookies. -/
def clearAllCookies (_c : SignedCookies) : SignedCookies := {}

/-- Outcome of a middleware/controller invocation: `proceed` is `next()` or
a success response, `loggedOut` is the completed Logout side effect with its
response, and `errored e` is `next(error)` (the error middleware responds). -/
inductive MwOutcome where
  | proceed
  | loggedOut
  | errored (e : JsError)
  deriving Repr, DecidableEq

/-- `AuthController.Logout` (also used as the forced-logout side effect):
when neither a user id nor a refresh token is resolvable it throws
"already logged out" (caught and passed to `next(error)`) without touching
any state; otherwise it revokes by the current device id, then clears all
session keys and all credential cookies before responding. The `forced`
flag only selects the response message. -/
def logout (s : SysState) (_forced : Bool) (now : Nat) : MwOutcome × SysState :=
  let userId := getUserId s
  let refreshToken := getRefreshToken s
  if truthy userId = false ∧ refreshToken.isSome = false then
    (.errored .alreadyLoggedOut, s)
  else
    let r1 := revokeRefreshToken s "User logged out" now none none
    (.loggedOut,
      { r1.2 with session := clearAllSessions r1.2.session, cookies := clearAllCookies r1.2.cookies })

/-- `UserHelper.GenerateDeviceId`: with `forceNew` (the only mode the current
rotation uses) or when no device id is resolvable, draws a fresh salt,
derives `HMAC(secret, userId:salt)`, stores it in the device cookie; either
way the device id is mirrored into the request overlay and the session.
Returns the `{ deviceId, salt }` pair, `salt` being `undefined` when an
existing id was reused. -/
def generateDeviceId (hmac : String → String → String) (secret : String)
    (s : SysState) (uid : Option String) (forceNew : Bool) (freshSalt : String) :
    (String × Option String) × SysState :=
  let userId := jsOr uid (getUserId s)
  let existing : Option String := if forceNew then none else getDeviceId s
  if truthy existing then
    let d := existing.getD ""
    ((d, none),
      { s with req := { s.req with deviceId := some d },
               session := { s.session with deviceId := some d } })
  else
    let d := hmac secret (optToStr userId ++ ":" ++ freshSalt)
    ((d, some freshSalt),
      { s with cookies := { s.cookies with deviceId := some d },
               req := { s.req with deviceId := some d },
               session := { s.session with deviceId := some d } })

/-- `TokenHelper.GenerateNewAccessToken`: throws when the user id is falsy;
signs an access token whose `jwtid` is the argument or, failing that, the
session's `jwtId`; writes the access-token cookie and mirrors the token
into the request overlay and the session. -/
def generateNewAccessToken (s : SysState) (userId : Option String)
    (jwtId : Option String) (now : Nat) : Except JsError (Jwt × SysState) :=
  if truthy userId = false then .error .userIdNotFound
  else
    let tok := signToken (optToStr userId) now accessTokenLifetime (jsOr jwtId s.session.jwtId)
    .ok (tok,
      { s with cookies := { s.cookies with accessToken := some tok },
               req := { s.req with accessToken := some tok },
               session := { s.session with accessToken := some tok } })

/-- `TokenHelper.GenerateNewRefreshToken`: resolves the user id, revokes the
records of the current device id, draws a fresh device binding
(`GenerateDeviceId` with `forceNew`), signs a fresh refresh token, persists
the new record stamped with the request's ip address and user agent, writes
the refresh-token and refresh-token-id cookies, and mirrors both values into
the request overlay and the session. -/
def generateNewRefreshToken (hmac : String → String → String) (secret : String)
    (s : SysState) (fromMethod : String) (userId : Option String) (now : Nat)
    (freshSalt freshRid : String) : RefreshTokenRecord × SysState :=
  let uid := jsOr userId (getUserId s)
  let currentDeviceId := getDeviceId s
  let rres0 := revokeRefreshToken s ("New refresh token generated by " ++ fromMethod)
                 now currentDeviceId none
  let dres := generateDeviceId hmac secret rres0.2 uid true freshSalt
  let s2 := dres.2
  let tok := signToken (optToStr uid) now refreshTokenLifetime none
  let newRec : RefreshTokenRecord :=
    { rid := freshRid
      userId := optToStr uid
      deviceId := dres.1.1
      salt := (dres.1.2).getD ""
      token := tok
      ipAddress := s2.req.ipAddress
      userAgent := s2.req.userAgent
      expiresAt := now + refreshTokenLifetime }
  (newRec,
    { s2 with store := s2.store ++ [newRec],
              cookies := { s2.cookies with refreshToken := some tok,
                                           refreshTokenId := some freshRid },
              req := { s2.req with refreshToken := some tok,
                                   refreshTokenId := some freshRid },
              session := { s2.session with refreshToken := some tok,
                                           refreshTokenId := some freshRid } })

/-- `AuthMiddleware.Authenticate`: rejects when neither a user id nor an
access token is present; on a valid access token it forces logout on a
user-id mismatch (a `null` user id makes `userId.toString()` throw, caught
as `next(error)`) and otherwise proceeds, mirroring the token and user id;
on an invalid access token it loads the refresh record, forces logout when
the record is missing or its device binding fails to validate, and
otherwise rotates under the user lock: a new refresh record, a fresh
`jwtid`, a new access token, all mirrored into the overlay and session.
The per-user lock is modelled separately (`withUserLock`); within a single
request its critical section runs exactly once, as inlined here. -/
def authenticate (hmac : String → String → String) (secret : String)
    (s : SysState) (now : Nat) (freshJwtId freshSalt freshRid : String) :
    MwOutcome × SysState :=
  let userId := getUserId s
  let accessToken := getAccessToken s
  if truthy userId = false ∧ accessToken.isSome = false then
    (.errored .routeProtected, s)
  else
    match validateAndDecodeToken s now accessToken .access with
    | some c =>
      match userId with
      | none => (.errored .typeError, s)
      | some u =>
        if c.userId ≠ u then logout s true now
        else
          (.proceed,
            { s with req := { s.req with accessToken := accessToken, userId := userId },
                     session := { s.session with accessToken := accessToken, userId := userId } })
    | none =>
      match getRefreshTokenRecord s now with
      | .error e => (.errored e, s)
      | .ok none => logout s true now
      | .ok (some rec) =>
        if validateDeviceId hmac secret s (some rec) = false then logout s true now
        else
          let rres := generateNewRefreshToken hmac secret s "Authenticate" none now freshSalt freshRid
          let newRec := rres.1
          match generateNewAccessToken rres.2 userId (some freshJwtId) now with
          | .error e => (.errored e, rres.2)
          | .ok ares =>
            (.proceed,
              { ares.2 with
                  req := { ares.2.req with jwtId := some freshJwtId, userId := userId,
                                           accessToken := some ares.1,
                                           refreshToken := some newRec.token,
                                           refreshTokenId := some newRec.rid },
                  session := { ares.2.session with jwtId := some freshJwtId, userId := userId,
                                                   accessToken := some ares.1,
                                                   refreshToken := some newRec.token,
                                                   refreshTokenId := some newRec.rid } })

/-- Per-field check of `AuthMiddleware.VerifySessionData` for string-valued
fields: the getter value and the session value must both be truthy, have
equal byte lengths, and compare equal under `crypto.timingSafeEqual`. -/
def sessionFieldOkS (v sv : Option String) : Bool :=
  truthy v && truthy sv && decide (v = sv)

/-- Per-field check of `AuthMiddleware.VerifySessionData` for token-valued
fields (a present token string is truthy). -/
def sessionFieldOkT (v sv : Option Jwt) : Bool :=
  v.isSome && sv.isSome && decide (v = sv)

/-- The five comparisons of `AuthMiddleware.VerifySessionData`, in source
order: for each of `userId`, `deviceId`, `accessToken`, `refreshToken`,
`refreshTokenId`, the value fetched through the dedicated getter against the
value stored directly in the session. The conjunction short-circuits at the
first failing field, matching the loop's early return. -/
def verifySessionDataPasses (s : SysState) : Bool :=
  sessionFieldOkS (getUserId s) s.session.userId &&
  sessionFieldOkS (getDeviceId s) s.session.deviceId &&
  sessionFieldOkT (getAccessToken s) s.session.accessToken &&
  sessionFieldOkT (getRefreshToken s) s.session.refreshToken &&
  sessionFieldOkS (getRefreshTokenId s) s.session.refreshTokenId

/-- `AuthMiddleware.VerifySessionData`: proceeds when every field passes,
otherwise forces logout. -/
def verifySessionData (s : SysState) (now : Nat) : MwOutcome × SysState :=
  if verifySessionDataPasses s then (.proceed, s) else logout s true now

/-- `UserModel.findOne({ email })` as used by `AuthController.Login`. -/
def findUserByEmail (users : List UserRec) (email : String) : Option UserRec :=
  users.find? (fun u => decide (u.email = email))

/-- `AuthController.Login`: required-field checks on email and password, user
lookup by email, password verification through the hashing collaborator
(`pwVerify hash plaintext`), then a fresh `jwtid`, a new access token, a new
refresh record (which revokes the current device's records first), the
user-id cookie, and the mirror of all five credential values into the
request overlay and the session, before the success response. -/
def login (hmac : String → String → String) (secret : String)
    (pwVerify : String → String → Bool) (users : List UserRec) (s : SysState)
    (email password : String) (now : Nat) (freshJwtId freshSalt freshRid : String) :
    MwOutcome × SysState :=
  if email = "" then (.errored .emailRequired, s)
  else if password = "" then (.errored .passwordRequired, s)
  else
    match findUserByEmail users email with
    | none => (.errored .userNotFound, s)
    | some user =>
      if pwVerify user.password password = false then (.errored .passwordInvalid, s)
      else
        match generateNewAccessToken s (some user.uid) (some freshJwtId) now with
        | .error e => (.errored e, s)
        | .ok ares =>
          let rres := generateNewRefreshToken hmac secret ares.2 "Login" (some user.uid)
                        now freshSalt freshRid
          let s3 := { rres.2 with cookies := { rres.2.cookies with userId := some user.uid } }
          (.proceed,
            { s3 with
                req := { s3.req with jwtId := some freshJwtId, userId := some user.uid,
                                     accessToken := some ares.1,
                                     refreshToken := some rres.1.token,
                                     refreshTokenId := some rres.1.rid },
                session := { s3.session with jwtId := some freshJwtId, userId := some user.uid,
                                             accessToken := some ares.1,
                                             refreshToken := some rres.1.token,
                                             refreshTokenId := some rres.1.rid } })

/-- A fresh request on an existing client: the request-local overlay resets
(with the request's transport metadata), while the session, the cookie jar
and the persistent collections carry over. -/
def newRequest (s : SysState) (ip ua : String) : SysState :=
  { s with req := { ipAddress := ip, userAgent := ua } }

/-- The in-memory `refreshLocks` map of `UserHelper`: user id to the id of
the in-flight rotation promise. -/
def LockMap : Type := List (String × Nat)

/-- Lookup in the lock map (`refreshLocks.has` / `refreshLocks.get`). -/
def lockFind (locks : LockMap) (uid : String) : Option Nat :=
  match List.find? (fun e => decide (e.1 = uid)) locks with
  | some e => some e.2
  | none => none

/-- Result of one `UserHelper.WithUserLock` call: the promise the caller
awaits, whether this call invoked `fn` (starting a rotation), and the map
afterwards. -/
structure LockCallResult where
  promiseId : Nat
  invokedFn : Bool
  locks : LockMap

/-- `UserHelper.WithUserLock`: if the user is already locked, return the
stored in-flight promise without calling `fn`; otherwise call `fn`, register
its promise (chained with the `finally` that will drop the entry), and
return it. The check and the insertion run with no intervening await, so
they are atomic with respect to the event loop; `freshPromise` names the
promise produced by this call's `fn()`. -/
def withUserLock (locks : LockMap) (uid : String) (freshPromise : Nat) : LockCallResult :=
  match lockFind locks uid with
  | some p => { promiseId := p, invokedFn := false, locks := locks }
  | none => { promiseId := freshPromise, invokedFn := true, locks := (uid, freshPromise) :: locks }

/-- Settlement of the in-flight promise: the `finally` handler runs on
fulfilment and on rejection alike (`succeeded` is which one) and deletes the
user's entry from the map. -/
def settleLock (_succeeded : Bool) (locks : LockMap) (uid : String) : LockMap :=
  List.filter (fun e => !(decide (e.1 = uid))) locks

/-! Concrete artefacts used by counterexamples and witnesses. -/

/-- A concrete stand-in for `crypto.createHmac('sha256', secret)` used when a
closed statement needs to evaluate the device-id derivation. -/
def demoHmac (key msg : String) : String := key ++ "#" ++ msg

/-- A request context with nothing resolvable anywhere and empty stores. -/
def demoState0 : SysState :=
  { req := {}, session := {}, cookies := {}, store := [], blacklist := [] }

/-- A stale (long-expired) but honestly signed access token. -/
def tokStale : Jwt :=
  { userId := "u1", expiresAt := 100, jwtId := none, issuer := issuerName, sigValid := true }

/-- A token whose signature does not verify. -/
def tokBadSig : Jwt :=
  { userId := "u1", expiresAt := 1000000, jwtId := none, issuer := issuerName, sigValid := false }

/-- C10: When neither a user id nor a refresh token is resolvable from the
request-local fields, the session or the signed cookies, `Logout` — forced
or not — throws "already logged out" and performs no state change at all:
the blacklist, the active store, the session and the cookies of the
resulting state are those of the input state. -/
theorem logout_noop_when_no_credentials (s : SysState) (forced : Bool) (now : Nat)
    (hu : truthy (getUserId s) = false) (hr : getRefreshToken s = none) :
    logout s forced now = (.errored .alreadyLoggedOut, s) := by
  simp [logout, hu, hr]

/-- Witness for C10: the empty request context. -/
theorem logout_noop_when_no_credentials_witness :
    logout demoState0 true 5 = (.errored .alreadyLoggedOut, demoState0) :=
  logout_noop_when_no_credentials demoState0 true 5 (by decide) (by decide)

/-- A state with a stale access token still in the session, but no resolvable
user id and no resolvable refresh token (only a dangling refresh-token-id
cookie). -/
def c7State : SysState :=
  { req := {}
    session := { accessToken := some tokStale }
    cookies := { refreshTokenId := some "rid1" }
    store := []
    blacklist := [] }

/-- C7 counterexample: On the state `c7State`, `Authenticate` takes a security-sensitive
rejection (the refresh record is not found) and triggers the forced-`Logout`
side effect, yet the response goes out with nothing cleared: the state is
unchanged and the stale access token is still present in the session. This
refutes the claim that every forced-logout path clears all client-side
credential material before responding. -/
theorem forced_logout_leaves_stale_access_token :
    logout c7State true 200 = (.errored .alreadyLoggedOut, c7State) ∧
    authenticate demoHmac "secret" c7State 200 "j1" "s1" "r1"
      = (.errored .alreadyLoggedOut, c7State) ∧
    c7State.session.accessToken = some tokStale := by
  refine ⟨by decide, by decide, rfl⟩

/-- C7 amended: On every forced-logout invocation in which a user id or a refresh token
is resolvable, `Logout` does clear all client-side credential material
before responding: every session key and every credential cookie of the
resulting state is absent. When neither is resolvable, `Logout` instead
responds "already logged out" without clearing anything (see the
counterexample and C10). -/
theorem logout_clears_all_when_credentials_present (s : SysState) (forced : Bool)
    (now : Nat)
    (h : truthy (getUserId s) = true ∨ (getRefreshToken s).isSome = true) :
    (logout s forced now).1 = .loggedOut ∧
    (logout s forced now).2.session = {} ∧
    (logout s forced now).2.cookies = {} := by
  have hng : ¬ (truthy (getUserId s) = false ∧ (getRefreshToken s).isSome = false) := by
    rcases h with h | h <;> simp [h]
  unfold logout
  rw [if_neg hng]
  refine ⟨?_, ?_, ?_⟩ <;> trivial

/-- A logged-in-looking context used to witness C7's amended theorem. -/
def c7CredState : SysState :=
  { req := {}
    session := { userId := some "u1", accessToken := some tokStale }
    cookies := {}
    store := []
    blacklist := [] }

/-- Witness for the amended C7. -/
theorem logout_clears_all_when_credentials_present_witness :
    (logout c7CredState true 7).1 = .loggedOut ∧
    (logout c7CredState true 7).2.session = {} ∧
    (logout c7CredState true 7).2.cookies = {} :=
  logout_clears_all_when_credentials_present c7CredState true 7 (Or.inl (by decide))

/-- C2: Rotation exclusivity under `WithUserLock`: starting from a map with no
in-flight rotation for the user, the first caller invokes its `fn` (starting
the single rotation, hence the single new refresh record); a second caller
arriving while that rotation is in flight does not invoke its `fn` and is
handed the very same promise, so both requests settle on the same new
credentials; and once the in-flight promise settles — fulfilment or
rejection alike — the user's lock entry is gone. -/
theorem withUserLock_single_rotation (locks : LockMap) (uid : String) (p q : Nat)
    (h : lockFind locks uid = none) :
    (withUserLock locks uid p).invokedFn = true ∧
    (withUserLock (withUserLock locks uid p).locks uid q).invokedFn = false ∧
    (withUserLock (withUserLock locks uid p).locks uid q).promiseId
      = (withUserLock locks uid p).promiseId ∧
    lockFind (settleLock true (withUserLock (withUserLock locks uid p).locks uid q).locks uid) uid
      = none ∧
    lockFind (settleLock false (withUserLock (withUserLock locks uid p).locks uid q).locks uid) uid
      = none := by
  have h1 : withUserLock locks uid p
      = { promiseId := p, invokedFn := true, locks := (uid, p) :: locks } := by
    unfold withUserLock
    rw [h]
  have h2 : lockFind ((uid, p) :: locks) uid = some p := by
    simp [lockFind, List.find?]
  have h3 : withUserLock ((uid, p) :: locks) uid q
      = { promiseId := p, invokedFn := false, locks := (uid, p) :: locks } := by
    unfold withUserLock
    rw [h2]
  have h4 : ∀ b, lockFind (settleLock b ((uid, p) :: locks) uid) uid = none := by
    intro b
    simp only [settleLock, lockFind]
    rw [List.find?_eq_none.mpr]
    intro e he
    simp only [List.mem_filter] at he
    simpa using he.2
  rw [h1]
  simp only [h3]
  exact ⟨trivial, trivial, trivial, h4 true, h4 false⟩

/-- Witness for C2. -/
theorem withUserLock_single_rotation_witness :
    (withUserLock [] "u1" 41).invokedFn = true ∧
    (withUserLock (withUserLock [] "u1" 41).locks "u1" 42).invokedFn = false ∧
    (withUserLock (withUserLock [] "u1" 41).locks "u1" 42).promiseId
      = (withUserLock [] "u1" 41).promiseId ∧
    lockFind (settleLock true (withUserLock (withUserLock [] "u1" 41).locks "u1" 42).locks "u1") "u1"
      = none ∧
    lockFind (settleLock false (withUserLock (withUserLock [] "u1" 41).locks "u1" 42).locks "u1") "u1"
      = none :=
  withUserLock_single_rotation [] "u1" 41 42 rfl

/-- C4: `ValidateDeviceId` is total into `Bool` (the catch-all returns `false`,
so it never throws) and accepts exactly when a record was supplied, its salt
is truthy, and the presented device id — which the getters only ever
resolve to a truthy value — equals the keyed hash recomputed from the
record's `userId` and `salt`; every other input, including a missing device
id or a record without a salt, yields `false`. -/
theorem validateDeviceId_true_iff (hmac : String → String → String) (secret : String)
    (s : SysState) (rec? : Option RefreshTokenRecord) :
    validateDeviceId hmac secret s rec? = true ↔
      ∃ rec, rec? = some rec ∧ rec.salt ≠ "" ∧
        hmac secret (rec.userId ++ ":" ++ rec.salt) ≠ "" ∧
        getDeviceId s = some (hmac secret (rec.userId ++ ":" ++ rec.salt)) := by
  rcases hd : getDeviceId s with _ | d <;> rcases rec? with _ | rec
  · simp [validateDeviceId, hd]
  · simp [validateDeviceId, hd]
  · simp [validateDeviceId, hd]
  · constructor
    · intro hv
      simp only [validateDeviceId, hd] at hv
      by_cases h1 : d = ""
      · rw [if_pos h1] at hv
        exact absurd hv (by simp)
      rw [if_neg h1] at hv
      by_cases h2 : rec.salt = ""
      · rw [if_pos h2] at hv
        exact absurd hv (by simp)
      rw [if_neg h2] at hv
      by_cases h3 : d.length ≠ (hmac secret (rec.userId ++ ":" ++ rec.salt)).length
      · rw [if_pos h3] at hv
        exact absurd hv (by simp)
      rw [if_neg h3] at hv
      have heq : d = hmac secret (rec.userId ++ ":" ++ rec.salt) := of_decide_eq_true hv
      refine ⟨rec, rfl, h2, ?_, ?_⟩
      · rw [← heq]
        exact h1
      · rw [← heq]
    · rintro ⟨rec2, hr2, hsalt, hne, hdev⟩
      have hrr : rec = rec2 := by
        injection hr2
      subst hrr
      have hdd : d = hmac secret (rec.userId ++ ":" ++ rec.salt) := Option.some_inj.mp hdev
      have h1 : ¬ d = "" := by
        rw [hdd]
        exact hne
      have h3 : ¬ d.length ≠ (hmac secret (rec.userId ++ ":" ++ rec.salt)).length := by
        rw [hdd]
        simp
      simp only [validateDeviceId, hd]
      rw [if_neg h1, if_neg hsalt, if_neg h3]
      exact decide_eq_true hdd

/-- A verification that fails on signature, expiry or issuer yields an error
whatever the expected token id is. -/
lemma verifyToken_error_exists {now : Nat} {tok : Jwt} (exp : Option String)
    (h : tok.sigValid = false ∨ tok.expiresAt < now ∨ tok.issuer ≠ issuerName) :
    ∃ e, verifyToken now tok exp = .error e := by
  unfold verifyToken
  by_cases h1 : tok.sigValid = false
  · exact ⟨_, by rw [if_pos h1]⟩
  rw [if_neg h1]
  by_cases h2 : tok.expiresAt < now
  · exact ⟨_, by rw [if_pos h2]⟩
  rw [if_neg h2]
  by_cases h3 : tok.issuer ≠ issuerName
  · exact ⟨_, by rw [if_pos h3]⟩
  rcases h with h | h | h
  · exact absurd h h1
  · exact absurd h h2
  · exact absurd h h3

/-- A token whose embedded `jwtid` differs from the expected one never
verifies against that expectation. -/
lemma verifyToken_error_of_jti_mismatch {now : Nat} {tok : Jwt} {e : String}
    (hj : tok.jwtId ≠ some e) :
    ∃ er, verifyToken now tok (some e) = .error er := by
  unfold verifyToken
  by_cases h1 : tok.sigValid = false
  · exact ⟨_, by rw [if_pos h1]⟩
  rw [if_neg h1]
  by_cases h2 : tok.expiresAt < now
  · exact ⟨_, by rw [if_pos h2]⟩
  rw [if_neg h2]
  by_cases h3 : tok.issuer ≠ issuerName
  · exact ⟨_, by rw [if_pos h3]⟩
  rw [if_neg h3]
  exact ⟨.invalidToken, by rw [if_pos ⟨rfl, hj⟩]⟩

/-- A successful verification always returns the token's own `userId`
claim. -/
lemma verifyToken_ok_userId {now : Nat} {tok : Jwt} {exp : Option String} {c : Claims}
    (h : verifyToken now tok exp = .ok c) : c.userId = tok.userId := by
  unfold verifyToken at h
  split_ifs at h
  cases h
  rfl

/-- A verifier error makes `ValidateAndDecodeToken` return `null`. -/
lemma validateAndDecodeToken_none_of_error {s : SysState} {now : Nat}
    {tok : Option Jwt} {ty : TokenType}
    (h : ∃ e, (match ty with
               | TokenType.access => verifyTokenOpt now tok (jsOr s.session.jwtId none)
               | TokenType.refresh => verifyTokenOpt now tok none :
               Except JsError Claims) = .error e) :
    validateAndDecodeToken s now tok ty = none := by
  rcases h with ⟨e, he⟩
  simp [validateAndDecodeToken, validateAndDecodeTokenBody, he]

/-- C8: `ValidateAndDecodeToken` returns `null` — it is a total function into
`Option Claims`, its catch-all swallowing every exception, so nothing is
thrown to the caller — on a missing token and on every verification
failure: a bad signature, an expired token, a wrong issuer, a token-id
mismatch against the session-held expected id, or a missing `userId` claim
in an access token. -/
theorem validateAndDecodeToken_null_on_failure (s : SysState) (now : Nat)
    (ty : TokenType) :
    validateAndDecodeToken s now none ty = none ∧
    ∀ tok : Jwt,
      (tok.sigValid = false ∨ tok.expiresAt < now ∨ tok.issuer ≠ issuerName ∨
        (ty = .access ∧ truthy s.session.jwtId = true ∧ tok.jwtId ≠ s.session.jwtId) ∨
        (ty = .access ∧ tok.userId = "")) →
      validateAndDecodeToken s now (some tok) ty = none := by
  constructor
  · apply validateAndDecodeToken_none_of_error
    cases ty
    · exact ⟨.invalidToken, rfl⟩
    · exact ⟨.invalidToken, rfl⟩
  · intro tok h
    rcases h with h | h | h | h | h
    · apply validateAndDecodeToken_none_of_error
      cases ty
      · exact verifyToken_error_exists _ (Or.inl h)
      · exact verifyToken_error_exists _ (Or.inl h)
    · apply validateAndDecodeToken_none_of_error
      cases ty
      · exact verifyToken_error_exists _ (Or.inr (Or.inl h))
      · exact verifyToken_error_exists _ (Or.inr (Or.inl h))
    · apply validateAndDecodeToken_none_of_error
      cases ty
      · exact verifyToken_error_exists _ (Or.inr (Or.inr h))
      · exact verifyToken_error_exists _ (Or.inr (Or.inr h))
    · rcases h with ⟨hty, htr, hneq⟩
      subst hty
      rcases hsj : s.session.jwtId with _ | e
      · rw [hsj] at htr
        exact absurd htr (by simp [truthy])
      · have hexp : jsOr s.session.jwtId none = some e := by
          rw [hsj] at htr ⊢
          unfold jsOr
          rw [if_pos htr]
        apply validateAndDecodeToken_none_of_error
        show ∃ er, verifyTokenOpt now (some tok) (jsOr s.session.jwtId none) = .error er
        rw [hexp]
        exact verifyToken_error_of_jti_mismatch (by rw [← hsj]; exact hneq)
    · rcases h with ⟨hty, huid⟩
      subst hty
      rcases hv : verifyTokenOpt now (some tok) (jsOr s.session.jwtId none) with e | c
      · exact validateAndDecodeToken_none_of_error ⟨e, hv⟩
      · have hc : c.userId = tok.userId := verifyToken_ok_userId hv
        simp [validateAndDecodeToken, validateAndDecodeTokenBody, hv, hc, huid]

/-- Witness for C8: a forged refresh token decodes to `null`. -/
theorem validateAndDecodeToken_null_on_failure_witness :
    validateAndDecodeToken demoState0 50 (some tokBadSig) .refresh = none :=
  (validateAndDecodeToken_null_on_failure demoState0 50 .refresh).2 tokBadSig (Or.inl rfl)

/-- The records selected by `RevokeRefreshToken` all come from the active
store. -/
lemma revokeMatchedRecords_subset (s : SysState) (target uid : Option String) :
    ∀ m, m ∈ revokeMatchedRecords s target uid → m ∈ s.store := by
  intro m hm
  unfold revokeMatchedRecords at hm
  split_ifs at hm
  · rcases h : getDeviceId s with _ | d <;> rw [h] at hm
    · cases hm
    · exact (List.mem_filter.mp hm).1
  · rcases target with _ | d
    · cases hm
    · exact (List.mem_filter.mp hm).1
  · rcases uid with _ | u
    · cases hm
    · exact (List.mem_filter.mp hm).1
  · cases hm

/-- A refresh token honestly signed for `u1`, bound to device `d0`, and its
active record — the pre-state of the revocation scenarios. -/
def tokR0 : Jwt := signToken "u1" 0 refreshTokenLifetime none

/-- The active record holding `tokR0`, bound to device `d0`. -/
def recR0 : RefreshTokenRecord :=
  { rid := "r0"
    userId := "u1"
    deviceId := "d0"
    salt := "salt0"
    token := tokR0
    ipAddress := "203.0.113.7"
    userAgent := "demo-agent"
    expiresAt := refreshTokenLifetime }

/-- A request context presenting `recR0`'s credentials, with `recR0` the only
active record and an empty blacklist. -/
def c1Pre : SysState :=
  { req := {}
    session := { userId := some "u1", deviceId := some "d0",
                 refreshToken := some tokR0, refreshTokenId := some "r0" }
    cookies := {}
    store := [recR0]
    blacklist := [] }

/-- C1 counterexample: in the state reached after `RevokeRefreshToken`'s
bulk insert into the token blacklist but before its delete from the active
store — an observable state, the two being separate awaited operations, and
exactly the intermediate state `revokeRefreshToken` is defined through —
the revoked token is simultaneously in the blacklist and still resolvable
as an active record through the `FindActive` lookup
(`GetRefreshTokenRecord`, which even returns it thanks to the grace
window). This refutes the invariant as claimed for states "during"
`RevokeRefreshToken`. -/
theorem revoke_mid_state_active_and_revoked :
    recR0 ∈ (revokeInsertPhase c1Pre "rotation" 1000 (some "d0") none).store ∧
    (∃ b ∈ (revokeInsertPhase c1Pre "rotation" 1000 (some "d0") none).blacklist,
        b.token = recR0.token) ∧
    getRefreshTokenRecord (revokeInsertPhase c1Pre "rotation" 1000 (some "d0") none) 1000
      = .ok (some recR0) := by
  refine ⟨by decide, ⟨toBlacklistRecord "rotation" 1000 recR0, by decide, rfl⟩, by rfl⟩

/-- C1 amended: once `RevokeRefreshToken` has completed both steps, the
invariant holds for everything it revoked: each matched record is in the
token blacklist and no active record with its token value survives in the
store (provided token values identify records, which holds since every
record's token is signed at its own creation). The violation is confined to
the window between the two steps, exhibited by the counterexample. -/
theorem revoke_complete_not_active_and_revoked (s : SysState) (reason : String)
    (now : Nat) (target uid : Option String)
    (hwf : ∀ r1, r1 ∈ s.store → ∀ r2, r2 ∈ s.store → r1.token = r2.token → r1.rid = r2.rid) :
    ∀ m, m ∈ revokeMatchedRecords s target uid →
      toBlacklistRecord reason now m ∈ (revokeRefreshToken s reason now target uid).2.blacklist ∧
      ∀ r, r ∈ (revokeRefreshToken s reason now target uid).2.store → r.token ≠ m.token := by
  intro m hm
  constructor
  · show toBlacklistRecord reason now m
      ∈ s.blacklist ++ (revokeMatchedRecords s target uid).map (toBlacklistRecord reason now)
    exact List.mem_append_right _ (List.mem_map_of_mem _ hm)
  · intro r hr htok
    have hmem : r ∈ s.store.filter (fun r2 =>
        !(decide (r2.rid ∈ (revokeMatchedRecords s target uid).map (fun x => x.rid)))) := hr
    have hparts := List.mem_filter.mp hmem
    have hrid : r.rid = m.rid :=
      hwf r hparts.1 m (revokeMatchedRecords_subset s target uid m hm) htok
    have hdec : (decide (r.rid ∈ (revokeMatchedRecords s target uid).map (fun x => x.rid)))
        = false := by
      simpa using hparts.2
    exact (of_decide_eq_false hdec) (hrid ▸ List.mem_map_of_mem _ hm)

/-- Witness for the amended C1, at the concrete scenario state. -/
theorem revoke_complete_not_active_and_revoked_witness :
    toBlacklistRecord "rotation" 1000 recR0
      ∈ (revokeRefreshToken c1Pre "rotation" 1000 (some "d0") none).2.blacklist ∧
    ∀ r, r ∈ (revokeRefreshToken c1Pre "rotation" 1000 (some "d0") none).2.store →
      r.token ≠ recR0.token :=
  revoke_complete_not_active_and_revoked c1Pre "rotation" 1000 (some "d0") none
    (by decide) recR0 (by decide)

/-- Characterization of the per-field session check on string fields. -/
lemma sessionFieldOkS_eq_true_iff (v sv : Option String) :
    sessionFieldOkS v sv = true ↔ ∃ x, x ≠ "" ∧ v = some x ∧ sv = some x := by
  unfold sessionFieldOkS
  rcases v with _ | a <;> rcases sv with _ | b
  · simp [truthy]
  · simp [truthy]
  · simp [truthy]
  · simp only [truthy, Bool.and_eq_true, decide_eq_true_eq]
    constructor
    · rintro ⟨⟨ha, _⟩, hab⟩
      have hba : a = b := Option.some_inj.mp hab
      exact ⟨a, by simpa using ha, rfl, by rw [hba]⟩
    · rintro ⟨x, hx, hax, hbx⟩
      have h1 : a = x := Option.some_inj.mp hax
      have h2 : b = x := Option.some_inj.mp hbx
      subst h1
      subst h2
      exact ⟨⟨by simpa using hx, by simpa using hx⟩, rfl⟩

/-- Characterization of the per-field session check on token fields. -/
lemma sessionFieldOkT_eq_true_iff (v sv : Option Jwt) :
    sessionFieldOkT v sv = true ↔ ∃ j, v = some j ∧ sv = some j := by
  unfold sessionFieldOkT
  rcases v with _ | a <;> rcases sv with _ | b
  · simp
  · simp
  · simp
  · simp only [Option.isSome_some, Bool.true_and, decide_eq_true_eq]
    constructor
    · intro hab
      exact ⟨a, rfl, by rw [Option.some_inj.mp hab]⟩
    · rintro ⟨j, haj, hbj⟩
      rw [Option.some_inj.mp haj, Option.some_inj.mp hbj]

/-- A `Logout` invocation never yields `next()`. -/
lemma logout_fst_ne_proceed (s : SysState) (b : Bool) (now : Nat) :
    (logout s b now).1 ≠ MwOutcome.proceed := by
  unfold logout
  by_cases h : (truthy (getUserId s) = false ∧ (getRefreshToken s).isSome = false)
  · rw [if_pos h]
    intro hcon
    cases hcon
  · rw [if_neg h]
    intro hcon
    cases hcon

/-- C6 amended: the session-integrity checker rejects — and its rejection is
exactly the forced-`Logout` side effect — precisely when, for one of the
five fields, the value obtained through the field's getter and the value
stored directly in the session are not both present (non-empty) and
identical. Because each getter prefers request-local, then session, then the
signed cookie, a divergence confined to the cookie channel while the session
still holds a value is invisible to this check (see the counterexample), so
the original claim's "any one-channel mutation forces logout" does not
hold; this characterization is what the code enforces. -/
theorem verifySessionData_rejects_iff (s : SysState) (now : Nat) :
    ((verifySessionData s now).1 ≠ MwOutcome.proceed ↔
      ¬ ((∃ x, x ≠ "" ∧ getUserId s = some x ∧ s.session.userId = some x) ∧
         (∃ x, x ≠ "" ∧ getDeviceId s = some x ∧ s.session.deviceId = some x) ∧
         (∃ j, getAccessToken s = some j ∧ s.session.accessToken = some j) ∧
         (∃ j, getRefreshToken s = some j ∧ s.session.refreshToken = some j) ∧
         (∃ x, x ≠ "" ∧ getRefreshTokenId s = some x ∧ s.session.refreshTokenId = some x))) ∧
    ((verifySessionData s now).1 ≠ MwOutcome.proceed →
      verifySessionData s now = logout s true now) := by
  have hchar : verifySessionDataPasses s = true ↔
      ((∃ x, x ≠ "" ∧ getUserId s = some x ∧ s.session.userId = some x) ∧
       (∃ x, x ≠ "" ∧ getDeviceId s = some x ∧ s.session.deviceId = some x) ∧
       (∃ j, getAccessToken s = some j ∧ s.session.accessToken = some j) ∧
       (∃ j, getRefreshToken s = some j ∧ s.session.refreshToken = some j) ∧
       (∃ x, x ≠ "" ∧ getRefreshTokenId s = some x ∧ s.session.refreshTokenId = some x)) := by
    unfold verifySessionDataPasses
    rw [Bool.and_eq_true, Bool.and_eq_true, Bool.and_eq_true, Bool.and_eq_true]
    rw [sessionFieldOkS_eq_true_iff, sessionFieldOkS_eq_true_iff, sessionFieldOkS_eq_true_iff,
        sessionFieldOkT_eq_true_iff, sessionFieldOkT_eq_true_iff]
    tauto
  by_cases hp : verifySessionDataPasses s = true
  · constructor
    · rw [← hchar]
      unfold verifySessionData
      rw [if_pos hp]
      simp [hp]
    · unfold verifySessionData
      rw [if_pos hp]
      intro hcon
      exact absurd rfl hcon
  · constructor
    · rw [← hchar]
      unfold verifySessionData
      rw [if_neg hp]
      constructor
      · intro _
        exact hp
      · intro _
        exact logout_fst_ne_proceed s true now
    · unfold verifySessionData
      rw [if_neg hp]
      intro _
      rfl

/-- A consistently logged-in context: every credential is identical in the
request overlay (empty), the session and the signed cookies, the access
token is valid and matches the session's expected `jwtid`. -/
def c6Base : SysState :=
  { req := {}
    session := { jwtId := some "j1", userId := some "u1",
                 accessToken := some (signToken "u1" 0 accessTokenLifetime (some "j1")),
                 refreshToken := some (signToken "u1" 0 refreshTokenLifetime none),
                 refreshTokenId := some "r1", deviceId := some "d0" }
    cookies := { userId := some "u1",
                 accessToken := some (signToken "u1" 0 accessTokenLifetime (some "j1")),
                 refreshToken := some (signToken "u1" 0 refreshTokenLifetime none),
                 refreshTokenId := some "r1", deviceId := some "d0" }
    store := []
    blacklist := [] }

/-- `c6Base` with the `deviceId` signed cookie — and only it — mutated. -/
def c6Mutated : SysState :=
  { c6Base with cookies := { c6Base.cookies with deviceId := some "dX" } }

/-- C6 counterexample: mutate the `deviceId` field in exactly one of the two
channels — the signed cookie — while the session is left unchanged. The
next `Authenticate` call proceeds (the access token is valid and the user
ids agree) and the session-integrity verification also passes, because the
`deviceId` getter prefers the intact session value over the mutated cookie;
no forced logout happens, refuting the claim for this field/channel pair. -/
theorem session_tamper_missed_for_cookie_mutation :
    c6Mutated.session = c6Base.session ∧
    c6Mutated.cookies.deviceId = some "dX" ∧
    c6Base.cookies.deviceId = some "d0" ∧
    (authenticate demoHmac "secret" c6Mutated 500 "jF" "sF" "rF").1 = .proceed ∧
    verifySessionDataPasses (authenticate demoHmac "secret" c6Mutated 500 "jF" "sF" "rF").2
      = true := by
  refine ⟨rfl, rfl, rfl, by rfl, by rfl⟩

/-- The post-state of a successful rotation run on `c1Pre`: the rotation
(`GenerateNewRefreshToken` from `Authenticate`) moved `recR0` into the
token blacklist and replaced it with a fresh record. -/
def c3Rotated : SysState :=
  (generateNewRefreshToken demoHmac "secret" c1Pre "Authenticate" none 1000 "saltN" "rN").2

/-- The duplicate in-flight request still presenting `recR0`'s old
credentials against the stores left by the completed rotation. -/
def c3Present : SysState :=
  { req := {}
    session := { userId := some "u1", deviceId := some "d0",
                 refreshToken := some tokR0, refreshTokenId := some "r0" }
    cookies := {}
    store := c3Rotated.store
    blacklist := c3Rotated.blacklist }

/-- C3 counterexample: `tokR0` was moved to the Revocation Registry by a
successful rotation and is presented for the first time well inside its
grace window (`now = 2000 ≤ graceUntil = 61000`), yet the presentation
fails: `GetRefreshTokenRecord` resolves no record, because the rotation
deleted the active record and the active-store lookup runs before any grace
check. The claimed "one free presentation within `graceUntil`" therefore
does not hold. -/
theorem revoked_token_within_grace_rejected :
    (∃ b ∈ c3Present.blacklist, b.token = tokR0 ∧ 2000 ≤ b.graceUntil) ∧
    getRefreshTokenRecord c3Present 2000 = .ok none := by
  refine ⟨⟨toBlacklistRecord "New refresh token generated by Authenticate" 1000 recR0,
    by decide, rfl, by decide⟩, by rfl⟩

/-- The single-record scenario state for the grace-period analysis: one
active record bound to device `d0` whose credentials the request presents
through its cookies. -/
def graceRecord (u d0 salt0 rid ip ua : String) (tk : Jwt) (rexp : Nat) :
    RefreshTokenRecord :=
  { rid := rid, userId := u, deviceId := d0, salt := salt0, token := tk,
    ipAddress := ip, userAgent := ua, expiresAt := rexp }

/-- Request context presenting `graceRecord`'s credentials, that record being
the only active one and the blacklist empty. -/
def graceState (u d0 salt0 rid ip ua : String) (tk : Jwt) (rexp : Nat) : SysState :=
  { req := {}
    session := {}
    cookies := { userId := some u, refreshToken := some tk,
                 refreshTokenId := some rid, deviceId := some d0 }
    store := [graceRecord u d0 salt0 rid ip ua tk rexp]
    blacklist := [] }

/-- C3 amended: what the code actually implements. (a) After a completed
revocation of the presented record, every presentation of the revoked token
fails — at any time, even inside the grace window — because the active
record is deleted and `GetRefreshTokenRecord` requires an active-store
match before consulting the registry. (b) While the token is blacklisted
but its active record still exists (the state between the two steps of
`RevokeRefreshToken`), a presentation succeeds whenever `now ≤ graceUntil`
— on every presentation, not just once — and (c) fails once the window has
passed. -/
theorem grace_window_semantics (u d0 salt0 rid ip ua : String) (tk : Jwt)
    (rexp t1 : Nat) (hu : u ≠ "") (hrid : rid ≠ "") (hd0 : d0 ≠ "") :
    (∀ t2, getRefreshTokenRecord
        (revokeRefreshToken (graceState u d0 salt0 rid ip ua tk rexp) "rotated" t1
          (some d0) none).2 t2 = .ok none) ∧
    (∀ t2, t2 ≤ t1 + 60 * 1000 →
      getRefreshTokenRecord
        (revokeInsertPhase (graceState u d0 salt0 rid ip ua tk rexp) "rotated" t1
          (some d0) none) t2 = .ok (some (graceRecord u d0 salt0 rid ip ua tk rexp))) ∧
    (∀ t2, t1 + 60 * 1000 < t2 →
      getRefreshTokenRecord
        (revokeInsertPhase (graceState u d0 salt0 rid ip ua tk rexp) "rotated" t1
          (some d0) none) t2 = .ok none) := by
  have hmatched : revokeMatchedRecords (graceState u d0 salt0 rid ip ua tk rexp)
      (some d0) none = [graceRecord u d0 salt0 rid ip ua tk rexp] := by
    unfold revokeMatchedRecords
    simp [graceState, graceRecord, getDeviceId, jsOr, truthy, hd0, List.filter]
  refine ⟨?_, ?_, ?_⟩
  · intro t2
    unfold getRefreshTokenRecord
    simp only [revokeRefreshToken, revokeInsertPhase, hmatched]
    simp [graceState, graceRecord, getUserId, getRefreshToken, getRefreshTokenId,
          getDeviceId, jsOr, jsOrO, truthy, hu, hrid, hd0, List.filter, List.find?]
  · intro t2 h2
    unfold getRefreshTokenRecord
    simp only [revokeInsertPhase, hmatched]
    simp [graceState, graceRecord, toBlacklistRecord, getUserId, getRefreshToken,
          getRefreshTokenId, getDeviceId, jsOr, jsOrO, truthy, hu, hrid, hd0,
          List.filter, List.find?, h2]
  · intro t2 h2
    unfold getRefreshTokenRecord
    simp only [revokeInsertPhase, hmatched]
    simp [graceState, graceRecord, toBlacklistRecord, getUserId, getRefreshToken,
          getRefreshTokenId, getDeviceId, jsOr, jsOrO, truthy, hu, hrid, hd0,
          List.filter, List.find?, Nat.not_le.mpr h2]

/-- Witness for the amended C3, at the concrete scenario values. -/
theorem grace_window_semantics_witness :
    getRefreshTokenRecord
      (revokeRefreshToken (graceState "u1" "d0" "salt0" "r0" "ip" "ua" tokR0 99) "rotated" 1000
        (some "d0") none).2 2000 = .ok none ∧
    getRefreshTokenRecord
      (revokeInsertPhase (graceState "u1" "d0" "salt0" "r0" "ip" "ua" tokR0 99) "rotated" 1000
        (some "d0") none) 2000 = .ok (some (graceRecord "u1" "d0" "salt0" "r0" "ip" "ua" tokR0 99)) ∧
    getRefreshTokenRecord
      (revokeInsertPhase (graceState "u1" "d0" "salt0" "r0" "ip" "ua" tokR0 99) "rotated" 1000
        (some "d0") none) 70000 = .ok none :=
  ⟨(grace_window_semantics "u1" "d0" "salt0" "r0" "ip" "ua" tokR0 99 1000
      (by decide) (by decide) (by decide)).1 2000,
   (grace_window_semantics "u1" "d0" "salt0" "r0" "ip" "ua" tokR0 99 1000
      (by decide) (by decide) (by decide)).2.1 2000 (by decide),
   (grace_window_semantics "u1" "d0" "salt0" "r0" "ip" "ua" tokR0 99 1000
      (by decide) (by decide) (by decide)).2.2 70000 (by decide)⟩

/-- Scenario state for the device-mismatch analysis: the session carries the
user id, an access token and `graceRecord`'s refresh credentials; the
device-id cookie presents `d1`, while the single active record is bound to
device `d0`; the blacklist is empty (the token is not revoked). -/
def mismatchState (u d0 d1 salt0 rid ip ua : String) (tk jA : Jwt) (rexp : Nat) :
    SysState :=
  { req := {}
    session := { userId := some u, accessToken := some jA,
                 refreshToken := some tk, refreshTokenId := some rid }
    cookies := { deviceId := some d1 }
    store := [graceRecord u d0 salt0 rid ip ua tk rexp]
    blacklist := [] }

/-- C5: a request presenting a syntactically valid, unexpired, non-revoked
refresh token together with a device-id cookie `d1` different from the
record's device id `d0` fails authentication with a forced logout, creates
no new refresh record, and leaves the active record untouched: it is still
the only record in the active store and the blacklist is still empty —
the record is neither deleted nor inserted into the Revocation Registry
(the `FindActive` lookup already fails on the mismatched device id, before
any store mutation, and the forced logout's own revocation matches only the
presented device id `d1`). -/
theorem device_mismatch_rejected_without_mutation
    (hmac : String → String → String) (secret : String)
    (u d0 d1 salt0 rid ip ua : String) (tk jA : Jwt) (rexp now : Nat)
    (freshJ freshS freshR : String)
    (hu : u ≠ "") (hrid : rid ≠ "") (hd1 : d1 ≠ "") (hne : d1 ≠ d0)
    (hexpA : jA.expiresAt < now)
    (_hsig : tk.sigValid = true) (_hunexp : ¬ tk.expiresAt < now) :
    (authenticate hmac secret (mismatchState u d0 d1 salt0 rid ip ua tk jA rexp) now
        freshJ freshS freshR).1 = .loggedOut ∧
    (authenticate hmac secret (mismatchState u d0 d1 salt0 rid ip ua tk jA rexp) now
        freshJ freshS freshR).2.store = [graceRecord u d0 salt0 rid ip ua tk rexp] ∧
    (authenticate hmac secret (mismatchState u d0 d1 salt0 rid ip ua tk jA rexp) now
        freshJ freshS freshR).2.blacklist = [] := by
  have hdecA : validateAndDecodeToken (mismatchState u d0 d1 salt0 rid ip ua tk jA rexp)
      now (getAccessToken (mismatchState u d0 d1 salt0 rid ip ua tk jA rexp)) .access
      = none := by
    apply validateAndDecodeToken_none_of_error
    show ∃ er, verifyTokenOpt now
      (getAccessToken (mismatchState u d0 d1 salt0 rid ip ua tk jA rexp))
      (jsOr (mismatchState u d0 d1 salt0 rid ip ua tk jA rexp).session.jwtId none)
      = .error er
    have hacc : getAccessToken (mismatchState u d0 d1 salt0 rid ip ua tk jA rexp)
        = some jA := by
      simp [mismatchState, getAccessToken, jsOrO]
    rw [hacc]
    exact verifyToken_error_exists _ (Or.inr (Or.inl hexpA))
  have hrec : getRefreshTokenRecord (mismatchState u d0 d1 salt0 rid ip ua tk jA rexp) now
      = .ok none := by
    unfold getRefreshTokenRecord
    simp [mismatchState, graceRecord, getUserId, getRefreshToken, getRefreshTokenId,
          getDeviceId, jsOr, jsOrO, truthy, hu, hrid, hd1, List.find?, hne]
  have hmatchedLogout : revokeMatchedRecords (mismatchState u d0 d1 salt0 rid ip ua tk jA rexp)
      none none = [] := by
    unfold revokeMatchedRecords
    simp [mismatchState, graceRecord, getDeviceId, jsOr, truthy, hd1, List.filter,
          Ne.symm hne]
  have htru : truthy (getUserId (mismatchState u d0 d1 salt0 rid ip ua tk jA rexp)) = true := by
    simp [mismatchState, getUserId, jsOr, truthy, hu]
  have hmain : authenticate hmac secret (mismatchState u d0 d1 salt0 rid ip ua tk jA rexp) now
      freshJ freshS freshR = logout (mismatchState u d0 d1 salt0 rid ip ua tk jA rexp) true now := by
    unfold authenticate
    simp [htru, hdecA, hrec]
  rw [hmain]
  unfold logout
  simp only [htru]
  refine ⟨?_, ?_, ?_⟩ <;>
  · simp only [revokeRefreshToken, revokeInsertPhase, hmatchedLogout]
    simp [clearAllSessions, clearAllCookies, mismatchState, List.filter]

/-- Witness for C5 at concrete scenario values. -/
theorem device_mismatch_rejected_without_mutation_witness :
    (authenticate demoHmac "secret" (mismatchState "u1" "d0" "d1" "salt0" "r0" "ip" "ua"
        tokR0 tokStale 99) 200 "jF" "sF" "rF").1 = .loggedOut ∧
    (authenticate demoHmac "secret" (mismatchState "u1" "d0" "d1" "salt0" "r0" "ip" "ua"
        tokR0 tokStale 99) 200 "jF" "sF" "rF").2.store
      = [graceRecord "u1" "d0" "salt0" "r0" "ip" "ua" tokR0 99] ∧
    (authenticate demoHmac "secret" (mismatchState "u1" "d0" "d1" "salt0" "r0" "ip" "ua"
        tokR0 tokStale 99) 200 "jF" "sF" "rF").2.blacklist = [] :=
  device_mismatch_rejected_without_mutation demoHmac "secret" "u1" "d0" "d1" "salt0" "r0"
    "ip" "ua" tokR0 tokStale 99 200 "jF" "sF" "rF" (by decide) (by decide) (by decide)
    (by decide) (by decide) (by decide) (by decide)

/-- The request context of the follow-up call: the state `Login` left behind,
carried into a fresh request (request-local overlay reset, session, cookies
and stores persisting). -/
def postLogin (hmac : String → String → String) (secret : String)
    (pwVerify : String → String → Bool) (users : List UserRec) (s0 : SysState)
    (email password : String) (t : Nat) (jid salt rid ip2 ua2 : String) : SysState :=
  newRequest (login hmac secret pwVerify users s0 email password t jid salt rid).2 ip2 ua2

/-- C9: for every user with valid credentials (found by email, password
verifying, a non-empty id) and every starting context, `Login` succeeds, and
an immediately following `Authenticate` call — any time within the access
token's lifetime — with the issued tokens succeeds (reaches `next()` rather
than a rejection) and leaves the authenticated user id unchanged: the
decoded access token, the resulting request overlay, the session, and the
user-id getter all agree on the user's id. -/
theorem login_then_authenticate_roundtrip
    (hmac : String → String → String) (secret : String)
    (pwVerify : String → String → Bool) (users : List UserRec) (user : UserRec)
    (s0 : SysState) (password : String) (t tGap : Nat)
    (jid salt rid ip2 ua2 j2 s2 r2 : String)
    (hemail : user.email ≠ "") (hpw : password ≠ "")
    (hfind : findUserByEmail users user.email = some user)
    (hverify : pwVerify user.password password = true)
    (huid : user.uid ≠ "") (hjid : jid ≠ "") (hgap : tGap ≤ accessTokenLifetime) :
    (login hmac secret pwVerify users s0 user.email password t jid salt rid).1
      = .proceed ∧
    (authenticate hmac secret
        (postLogin hmac secret pwVerify users s0 user.email password t jid salt rid ip2 ua2)
        (t + tGap) j2 s2 r2).1 = .proceed ∧
    validateAndDecodeToken
        (postLogin hmac secret pwVerify users s0 user.email password t jid salt rid ip2 ua2)
        (t + tGap)
        (getAccessToken
          (postLogin hmac secret pwVerify users s0 user.email password t jid salt rid ip2 ua2))
        .access = some { userId := user.uid } ∧
    getUserId (authenticate hmac secret
        (postLogin hmac secret pwVerify users s0 user.email password t jid salt rid ip2 ua2)
        (t + tGap) j2 s2 r2).2 = some user.uid ∧
    (authenticate hmac secret
        (postLogin hmac secret pwVerify users s0 user.email password t jid salt rid ip2 ua2)
        (t + tGap) j2 s2 r2).2.session.userId = some user.uid ∧
    (authenticate hmac secret
        (postLogin hmac secret pwVerify users s0 user.email password t jid salt rid ip2 ua2)
        (t + tGap) j2 s2 r2).2.req.userId = some user.uid := by
  have hgenA : generateNewAccessToken s0 (some user.uid) (some jid) t
      = .ok (signToken user.uid t accessTokenLifetime (some jid),
             { s0 with
               cookies := { s0.cookies with
                 accessToken := some (signToken user.uid t accessTokenLifetime (some jid)) },
               req := { s0.req with
                 accessToken := some (signToken user.uid t accessTokenLifetime (some jid)) },
               session := { s0.session with
                 accessToken := some (signToken user.uid t accessTokenLifetime (some jid)) } }) := by
    unfold generateNewAccessToken
    have h1 : ¬ (truthy (some user.uid) = false) := by simp [truthy, huid]
    rw [if_neg h1]
    have h2 : jsOr (some jid) s0.session.jwtId = some jid := by simp [jsOr, truthy, hjid]
    rw [h2]
    rfl
  have hL1 : (login hmac secret pwVerify users s0 user.email password t jid salt rid).1
      = .proceed := by
    unfold login
    rw [if_neg hemail, if_neg hpw]
    simp only [hfind]
    rw [if_neg (by simp [hverify])]
    simp only [hgenA]
  have hsU : (login hmac secret pwVerify users s0 user.email password t jid salt rid).2.session.userId
      = some user.uid := by
    unfold login
    rw [if_neg hemail, if_neg hpw]
    simp only [hfind]
    rw [if_neg (by simp [hverify])]
    simp only [hgenA]
  have hsA : (login hmac secret pwVerify users s0 user.email password t jid salt rid).2.session.accessToken
      = some (signToken user.uid t accessTokenLifetime (some jid)) := by
    unfold login
    rw [if_neg hemail, if_neg hpw]
    simp only [hfind]
    rw [if_neg (by simp [hverify])]
    simp only [hgenA]
  have hsJ : (login hmac secret pwVerify users s0 user.email password t jid salt rid).2.session.jwtId
      = some jid := by
    unfold login
    rw [if_neg hemail, if_neg hpw]
    simp only [hfind]
    rw [if_neg (by simp [hverify])]
    simp only [hgenA]
  have hgU : getUserId
      (postLogin hmac secret pwVerify users s0 user.email password t jid salt rid ip2 ua2)
      = some user.uid := by
    unfold postLogin newRequest getUserId
    simp [jsOr, truthy, hsU, huid]
  have hgA : getAccessToken
      (postLogin hmac secret pwVerify users s0 user.email password t jid salt rid ip2 ua2)
      = some (signToken user.uid t accessTokenLifetime (some jid)) := by
    unfold postLogin newRequest getAccessToken
    simp [jsOrO, hsA]
  have hgJ : (postLogin hmac secret pwVerify users s0 user.email password t jid salt rid ip2 ua2).session.jwtId
      = some jid := by
    unfold postLogin newRequest
    exact hsJ
  have hdec : validateAndDecodeToken
      (postLogin hmac secret pwVerify users s0 user.email password t jid salt rid ip2 ua2)
      (t + tGap)
      (some (signToken user.uid t accessTokenLifetime (some jid)))
      .access = some { userId := user.uid } := by
    have hexpEq : jsOr
        (postLogin hmac secret pwVerify users s0 user.email password t jid salt rid ip2 ua2).session.jwtId
        none = some jid := by
      rw [hgJ]
      simp [jsOr, truthy, hjid]
    have hv : verifyToken (t + tGap) (signToken user.uid t accessTokenLifetime (some jid))
        (some jid) = .ok { userId := user.uid } := by
      unfold verifyToken signToken
      rw [if_neg (by simp)]
      rw [if_neg (by simp; omega)]
      rw [if_neg (by simp)]
      rw [if_neg (by simp)]
    unfold validateAndDecodeToken validateAndDecodeTokenBody
    simp only [verifyTokenOpt, hexpEq, hv]
    rw [if_neg (by simp [huid])]
  have hguardA : ¬ (truthy (getUserId
      (postLogin hmac secret pwVerify users s0 user.email password t jid salt rid ip2 ua2)) = false
      ∧ (getAccessToken
          (postLogin hmac secret pwVerify users s0 user.email password t jid salt rid ip2 ua2)).isSome
        = false) := by
    rw [hgU]
    simp [truthy, huid]
  refine ⟨hL1, ?_, by rw [hgA]; exact hdec, ?_, ?_, ?_⟩ <;>
  · unfold authenticate
    simp only [hgU, hgA, hdec]
    simp [getUserId, jsOr, truthy, huid]

/-- A concrete user for the round-trip witness. -/
def demoUser : UserRec := { uid := "u1", email := "a@b.c", password := "hash1" }

/-- Witness for C9 at concrete scenario values. -/
theorem login_then_authenticate_roundtrip_witness :
    (login demoHmac "secret" (fun _ _ => true) [demoUser] demoState0 demoUser.email "pw"
        0 "j" "s" "r").1 = .proceed ∧
    (authenticate demoHmac "secret"
        (postLogin demoHmac "secret" (fun _ _ => true) [demoUser] demoState0 demoUser.email
          "pw" 0 "j" "s" "r" "ip" "ua")
        (0 + 0) "j2" "s2" "r2").1 = .proceed ∧
    (authenticate demoHmac "secret"
        (postLogin demoHmac "secret" (fun _ _ => true) [demoUser] demoState0 demoUser.email
          "pw" 0 "j" "s" "r" "ip" "ua")
        (0 + 0) "j2" "s2" "r2").2.session.userId = some demoUser.uid :=
  have h := login_then_authenticate_roundtrip demoHmac "secret" (fun _ _ => true) [demoUser]
    demoUser demoState0 "pw" 0 0 "j" "s" "r" "ip" "ua" "j2" "s2" "r2"
    (by decide) (by decide) (by decide) rfl (by decide) (by decide) (by decide)
  ⟨h.1, h.2.1, h.2.2.2.2.1⟩

/-- A record whose device binding matches the `demoHmac` derivation below. -/
def c4Rec : RefreshTokenRecord := graceRecord "u1" "d0" "salt0" "r0" "ip" "ua" tokR0 99

/-- A request context presenting exactly the device id derived for `c4Rec`
under `demoHmac` with secret `"k"`. -/
def c4State : SysState :=
  { req := {}
    session := { deviceId := some "k#u1:salt0" }
    cookies := {}
    store := []
    blacklist := [] }

/-- Witness for C4: a matching device id validates. -/
theorem validateDeviceId_true_iff_witness :
    validateDeviceId demoHmac "k" c4State (some c4Rec) = true :=
  (validateDeviceId_true_iff demoHmac "k" c4State (some c4Rec)).mpr
    ⟨c4Rec, rfl, by decide, by decide, by decide⟩

/-- Witness for the amended C6: the empty context (every field missing) is
rejected by the session-integrity checker. -/
theorem verifySessionData_rejects_iff_witness :
    (verifySessionData demoState0 3).1 ≠ MwOutcome.proceed :=
  (verifySessionData_rejects_iff demoState0 3).1.mpr
    (fun hcon => by
      rcases hcon with ⟨⟨x, _, h1, _⟩, _⟩
      rw [show getUserId demoState0 = none from rfl] at h1
      cases h1)

end UserExpress
